import Mathlib

/-!
Shallow embedding of the risk-scoring and adaptive-strategy-selection
core of the phishing attack/defense exercise, together with theorems
settling the claims about it.

Source modules embedded here:
- the decision-tree email classifier and its feature analyzers
  (URLAnalyzer, KeywordAnalyzer, SenderAnalyzer, GrammarAnalyzer,
  DecisionTreeClassifier);
- the defense agent's inline classifier (classifyEmail and its private
  analyzeUrlAuthenticity copy);
- the strategy trainer (default seeding, calculateSuccessScore,
  learnFromCycle, getEmailStatuses, selectBestTargets).

JavaScript numbers are embedded as exact rationals (or integers where
the source only ever produces integers); counters are naturals.  All
text processing works on lists of characters with structurally
recursive scanners, so every definition evaluates by kernel reduction.
-/

namespace Info492

/-- Characters of a JavaScript string.  Text-level functions operate on
character lists so that every definition is structurally recursive. -/
abbrev Chars := List Char

/-- Lowercase a string, as the JavaScript toLowerCase on ASCII text. -/
def lower (s : Chars) : Chars := s.map Char.toLower

/-- Does the text begin with the pattern? -/
def startsWithChars : Chars → Chars → Bool
  | _, [] => true
  | [], _ :: _ => false
  | c :: cs, p :: ps => c == p && startsWithChars cs ps

/-- Substring test, the JavaScript String.includes. -/
def containsSub : Chars → Chars → Bool
  | [], pat => pat.isEmpty
  | text@(_ :: rest), pat => startsWithChars text pat || containsSub rest pat

/-- Scanner for non-overlapping occurrence counting: the skip counter
jumps past the characters consumed by the previous match, as a global
regular-expression match over a literal pattern does. -/
def countOccAux (pat : Chars) : Chars → Nat → Nat
  | [], _ => 0
  | text@(_ :: rest), 0 =>
    if startsWithChars text pat then 1 + countOccAux pat rest (pat.length - 1)
    else countOccAux pat rest 0
  | _ :: rest, skip + 1 => countOccAux pat rest skip

/-- Number of non-overlapping occurrences of a (non-empty) literal
pattern in the text, as counted by a global regular-expression match on
the escaped keyword. -/
def countOcc (text pat : Chars) : Nat :=
  if pat.isEmpty then 0 else countOccAux pat text 0

/-- Everything after the first occurrence of a character, none when the
character is absent. -/
def afterChar (c : Char) : Chars → Option Chars
  | [] => none
  | x :: rest => if x == c then some rest else afterChar c rest

/-- Domain part of an email address: the segment between the first and
second at-sign, lowercased; none when the address has no at-sign.  This
is the split-based extraction both URLAnalyzer.extractDomainFromEmail
and the defense agent use (the extracted segment may be empty, which the
callers treat as falsy). -/
def emailDomain (email : Chars) : Option Chars :=
  (afterChar '@' email).map (fun rest => lower (rest.takeWhile (fun c => c != '@')))

/-- Truthiness-guarded domain comparison: the sources only apply the
mismatch penalty when both domains are non-null, non-empty strings and
differ. -/
def domainDiffers (senderDomain urlDomain : Option Chars) : Bool :=
  match senderDomain, urlDomain with
  | some s, some u => !s.isEmpty && !u.isEmpty && u != s
  | _, _ => false

/-- Abstraction of one URL string.  The classifier and the defense agent
only observe a URL through a fixed set of regular-expression tests and
one capture group, so a URL is embedded as the results of those
observations:
- host: lowercased capture of the host group of the scheme-and-host
  pattern, none when that pattern does not match;
- matchesSuspicious: the suspicious-pattern regex of URLAnalyzer
  (a hyphenated second-level domain in com, net or org, or one of the
  words free, click, link, verify, secure anywhere in the URL);
- matchesShortCore: the shortener alternatives common to both
  implementations (bit.ly, tinyurl, t.co, goo.gl);
- matchesShortExtra: the additional shortener alternatives present only
  in the classifier module (short.link, ow.ly, is.gd);
- matchesIp: the dotted-quad IPv4 pattern, tested anywhere in the URL;
- isHttp: the URL starts with the insecure http scheme. -/
structure Url where
  host : Option Chars
  matchesSuspicious : Bool
  matchesShortCore : Bool
  matchesShortExtra : Bool
  matchesIp : Bool
  isHttp : Bool
deriving DecidableEq

/-- Remove one leading www. token, as the replace in
URLAnalyzer.extractDomain. -/
def stripWww (h : Chars) : Chars :=
  if startsWithChars h ("www.".data) then h.drop 4 else h

namespace URLAnalyzer

/-- URLAnalyzer.extractDomain on the Url abstraction: the (already
lowercased) host capture with one leading www. removed. -/
def extractDomain (u : Url) : Option Chars := u.host.map stripWww

/-- URLAnalyzer.extractDomainFromEmail. -/
def extractDomainFromEmail (email : Chars) : Option Chars := emailDomain email

/-- URLAnalyzer.hasSuspiciousPatterns. -/
def hasSuspiciousPatterns (urls : List Url) : Bool := urls.any (·.matchesSuspicious)

/-- URLAnalyzer.hasUrlShorteners (all seven shortener alternatives). -/
def hasUrlShorteners (urls : List Url) : Bool :=
  urls.any (fun u => u.matchesShortCore || u.matchesShortExtra)

/-- URLAnalyzer.hasIpAddresses. -/
def hasIpAddresses (urls : List Url) : Bool := urls.any (·.matchesIp)

/-- URLAnalyzer.hasHttpLinks. -/
def hasHttpLinks (urls : List Url) : Bool := urls.any (·.isHttp)

/-- The loop body of URLAnalyzer.analyzeAuthenticity for one URL: the
five penalty subtractions in source order. -/
def penaltyStep (senderDomain : Option Chars) (s : Int) (u : Url) : Int :=
  let s := if domainDiffers senderDomain (extractDomain u) then s - 30 else s
  let s := if u.matchesSuspicious then s - 25 else s
  let s := if u.matchesShortCore || u.matchesShortExtra then s - 20 else s
  let s := if u.matchesIp then s - 35 else s
  if u.isHttp then s - 15 else s

/-- URLAnalyzer.analyzeAuthenticity: start from 100 and walk the URL
list, subtracting each applicable penalty in source order (domain
mismatch 30, suspicious pattern 25, shortener 20, IPv4 35, http 15),
then clamp once to the 0..100 range.  Zero URLs return 100 outright.
The content parameter of the source is unused there and omitted here. -/
def analyzeAuthenticity (urls : List Url) (senderEmail : Chars) : Int :=
  if urls.isEmpty then 100
  else
    let senderDomain := extractDomainFromEmail senderEmail
    max 0 (min 100 (urls.foldl (penaltyStep senderDomain) 100))

/-- URLAnalyzer.checkDomainMismatch. -/
def checkDomainMismatch (urls : List Url) (senderEmail : Chars) : Bool :=
  if urls.isEmpty || senderEmail.isEmpty then false
  else
    match extractDomainFromEmail senderEmail with
    | none => false
    | some sd =>
      if sd.isEmpty then false
      else
        urls.any (fun u =>
          match extractDomain u with
          | some ud => !ud.isEmpty && ud != sd
          | none => false)

end URLAnalyzer

/-- The five per-URL penalties exactly as the claim states the
algorithm: 30 for a host differing from the sender's email domain, 25
for the suspicious-pattern regex, 20 for a known shortener domain, 35
for a literal IPv4 address, 15 for the http scheme.  A missing or empty
host or sender domain is read as no mismatch. -/
def claimPenalty (senderDomain : Option Chars) (u : Url) : Int :=
  (if domainDiffers senderDomain (URLAnalyzer.extractDomain u) then 30 else 0) +
  (if u.matchesSuspicious then 25 else 0) +
  (if u.matchesShortCore || u.matchesShortExtra then 20 else 0) +
  (if u.matchesIp then 35 else 0) +
  (if u.isHttp then 15 else 0)

/-- The URL-authenticity score as the claim words it: start at 100,
subtract each URL's penalties, clamp the result to the 0..100 range. -/
def claimUrlAuthenticity (urls : List Url) (senderEmail : Chars) : Int :=
  max 0 (min 100 (100 - (urls.map (claimPenalty (emailDomain senderEmail))).sum))

/-- The subset of the penalties the defense agent's inline copy applies:
no suspicious-pattern penalty, only the four core shortener domains, and
hosts compared without removing a www. token. -/
def agentPenalty (senderDomain : Option Chars) (u : Url) : Int :=
  (if domainDiffers senderDomain u.host then 30 else 0) +
  (if u.matchesShortCore then 20 else 0) +
  (if u.matchesIp then 35 else 0) +
  (if u.isHttp then 15 else 0)

namespace DefenseAgent

/-- The loop body of the defense agent's analyzeUrlAuthenticity for one
URL: only four penalties, and hosts compared raw. -/
def agentPenaltyStep (senderDomain : Option Chars) (s : Int) (u : Url) : Int :=
  let s := if domainDiffers senderDomain u.host then s - 30 else s
  let s := if u.matchesShortCore then s - 20 else s
  let s := if u.matchesIp then s - 35 else s
  if u.isHttp then s - 15 else s

/-- AutonomousDefenseAgent.analyzeUrlAuthenticity: the inline copy in
the defense agent.  It checks only the mismatch, core-shortener, IPv4
and http penalties (no suspicious-pattern penalty, no extra shortener
domains) and compares the raw host capture without www. stripping. -/
def analyzeUrlAuthenticity (urls : List Url) (senderEmail : Chars) : Int :=
  if urls.isEmpty then 100
  else
    let senderDomain := emailDomain senderEmail
    max 0 (min 100 (urls.foldl (agentPenaltyStep senderDomain) 100))

end DefenseAgent

namespace KeywordAnalyzer

/-- KeywordAnalyzer keyword vocabularies, verbatim from the source. -/
def urgencyKeywords : List Chars :=
  ["urgent", "immediate", "critical", "asap", "action required",
   "verify now", "confirm immediately", "expires soon", "limited time"].map String.data

def credentialKeywords : List Chars :=
  ["password", "credentials", "login", "account", "verify account",
   "update account", "suspended", "locked", "reset password"].map String.data

def financialKeywords : List Chars :=
  ["payment", "invoice", "refund", "transaction", "wire transfer",
   "unauthorized charge", "billing", "overdue"].map String.data

def securityKeywords : List Chars :=
  ["security breach", "unauthorized access", "suspicious activity",
   "fraud detected", "verify identity", "security alert"].map String.data

def threatKeywords : List Chars :=
  ["account closed", "terminate", "expire", "delete", "permanent",
   "legal action", "suspended"].map String.data

def callToActionKeywords : List Chars :=
  ["click here", "verify", "confirm", "update", "reactivate",
   "restore", "unlock", "click the link"].map String.data

def suspiciousPhrases : List Chars :=
  ["click the link below", "verify your identity", "confirm your account",
   "update your information", "your account has been"].map String.data

def authorityKeywords : List Chars :=
  ["bank", "irs", "fbi", "government", "court", "legal", "police",
   "federal", "official"].map String.data

def scarcityKeywords : List Chars :=
  ["limited time", "expires soon", "last chance", "only today",
   "act now", "don\x27t miss"].map String.data

def consistencyKeywords : List Chars :=
  ["your account", "your profile", "your information", "we noticed",
   "your data", "your details"].map String.data

/-- KeywordAnalyzer.countKeywords: total occurrences over the whole
vocabulary, counted case-insensitively. -/
def countKeywords (text : Chars) (keywords : List Chars) : Nat :=
  (keywords.map (fun kw => countOcc (lower text) kw)).sum

/-- KeywordAnalyzer.countUrgencyKeywords over subject and content joined
by one space. -/
def countUrgencyKeywords (subject content : Chars) : Nat :=
  countKeywords (subject ++ ' ' :: content) urgencyKeywords

/-- KeywordAnalyzer.countCredentialKeywords. -/
def countCredentialKeywords (subject content : Chars) : Nat :=
  countKeywords (subject ++ ' ' :: content) credentialKeywords

/-- KeywordAnalyzer.countFinancialKeywords. -/
def countFinancialKeywords (subject content : Chars) : Nat :=
  countKeywords (subject ++ ' ' :: content) financialKeywords

/-- KeywordAnalyzer.countSecurityKeywords. -/
def countSecurityKeywords (subject content : Chars) : Nat :=
  countKeywords (subject ++ ' ' :: content) securityKeywords

/-- KeywordAnalyzer.countThreatKeywords. -/
def countThreatKeywords (subject content : Chars) : Nat :=
  countKeywords (subject ++ ' ' :: content) threatKeywords

/-- KeywordAnalyzer.countCallToActionKeywords, over the content only. -/
def countCallToActionKeywords (content : Chars) : Nat :=
  countKeywords content callToActionKeywords

/-- KeywordAnalyzer.countSuspiciousPhrases, over the content only. -/
def countSuspiciousPhrases (content : Chars) : Nat :=
  countKeywords content suspiciousPhrases

/-- KeywordAnalyzer.hasAuthorityImpersonation. -/
def hasAuthorityImpersonation (content : Chars) : Bool :=
  decide (0 < countKeywords content authorityKeywords)

/-- KeywordAnalyzer.hasScarcityTactics. -/
def hasScarcityTactics (content : Chars) : Bool :=
  decide (0 < countKeywords content scarcityKeywords)

/-- KeywordAnalyzer.hasConsistencyTactics (at least two hits). -/
def hasConsistencyTactics (content : Chars) : Bool :=
  decide (2 ≤ countKeywords content consistencyKeywords)

end KeywordAnalyzer

/-- Any-position scanner: does the test succeed on some suffix of the
text?  This is how an unanchored regular-expression search behaves. -/
def anySuffix (f : Chars → Bool) : Chars → Bool
  | [] => f []
  | l@(_ :: rest) => f l || anySuffix f rest

/-- Run of at least four consecutive digits starting somewhere in the
text (the four-or-more-digits pattern of SenderAnalyzer). -/
def hasDigitRun4 : Chars → Bool
  | [] => false
  | l@(_ :: rest) =>
    decide (4 ≤ (l.takeWhile Char.isDigit).length) || hasDigitRun4 rest

namespace SenderAnalyzer

/-- One alternation of the support/security/admin-digit pattern at the
head of the text: the word followed immediately by a digit. -/
def wordThenDigitHere (pat : Chars) (l : Chars) : Bool :=
  startsWithChars l pat &&
    (match (l.drop pat.length).head? with
     | some c => c.isDigit
     | none => false)

/-- The letters-digits-at pattern at the head of the text: one letter,
then at least one digit, then an at-sign.  An unanchored search matches
iff this holds at the suffix starting at the last letter of a match. -/
def letterDigitsAtHere (l : Chars) : Bool :=
  match l with
  | c :: rest =>
    c.isAlpha &&
      (let ds := rest.takeWhile Char.isDigit
       !ds.isEmpty && ((rest.drop ds.length).head? == some '@'))
  | [] => false

/-- SenderAnalyzer.hasSuspiciousPattern: the three case-insensitive
sender patterns (reply-address words, support/security/admin followed by
a digit, letters then digits directly before the at-sign). -/
def hasSuspiciousPattern (senderEmail : Chars) : Bool :=
  let s := lower senderEmail
  containsSub s "noreply".data || containsSub s "no-reply".data ||
  containsSub s "donotreply".data ||
  anySuffix (wordThenDigitHere "support".data) s ||
  anySuffix (wordThenDigitHere "security".data) s ||
  anySuffix (wordThenDigitHere "admin".data) s ||
  anySuffix letterDigitsAtHere s

/-- SenderAnalyzer.analyzeDomainReputation: 50 for a missing at-sign,
90 for a domain containing a trusted domain, 30 for a short domain or
one containing free or click, 60 otherwise. -/
def analyzeDomainReputation (senderEmail : Chars) : Int :=
  match emailDomain senderEmail with
  | none => 50
  | some domain =>
    if ["securebank.com", "bank.com", "company.com", "corp.com"].any
        (fun td => containsSub domain td.data) then 90
    else if domain.length < 8 || containsSub domain "free".data ||
        containsSub domain "click".data then 30
    else 60

/-- SenderAnalyzer.analyzeAuthenticity: 50 for an empty address,
otherwise 100 minus the suspicious-pattern penalty, shifted by the
domain-reputation delta, minus the reply-address and digit-run
penalties, clamped to 0..100.  The sender-name parameter of the source
is unused there and omitted here. -/
def analyzeAuthenticity (senderEmail : Chars) : Int :=
  if senderEmail.isEmpty then 50
  else
    let score : Int := 100
    let score := if hasSuspiciousPattern senderEmail then score - 30 else score
    let score := score + (analyzeDomainReputation senderEmail - 50)
    let score :=
      if containsSub senderEmail "noreply".data ||
          containsSub senderEmail "no-reply".data then score - 10 else score
    let score := if hasDigitRun4 senderEmail then score - 15 else score
    max 0 (min 100 score)

end SenderAnalyzer

/-- Split on runs of whitespace as the JavaScript whitespace-run split
does: maximal whitespace runs separate the segments, with an empty
segment at either end when the text starts or ends with whitespace.
The Boolean state records whether the scanner is inside a whitespace
run; the accumulator holds the current segment reversed. -/
def splitWsAux : Chars → Chars → Bool → List Chars
  | [], acc, false => [acc.reverse]
  | [], _, true => [[]]
  | c :: rest, acc, false =>
    if c.isWhitespace then acc.reverse :: splitWsAux rest [] true
    else splitWsAux rest (c :: acc) false
  | c :: rest, acc, true =>
    if c.isWhitespace then splitWsAux rest acc true
    else splitWsAux rest [c] false

/-- JavaScript split on the whitespace-run pattern. -/
def splitWs (text : Chars) : List Chars := splitWsAux text [] false

/-- Lengths of the maximal runs of equal characters in the text. -/
def runLensAux : Chars → Char → Nat → List Nat
  | [], _, n => [n]
  | c :: rest, cur, n =>
    if c == cur then runLensAux rest cur (n + 1)
    else n :: runLensAux rest c 1

/-- Run-length decomposition of the text. -/
def runLens : Chars → List Nat
  | [] => []
  | c :: rest => runLensAux rest c 1

namespace GrammarAnalyzer

/-- The known grammar-mistake phrases (each source regex is a literal
phrase matched case-insensitively). -/
def grammarMistakes : List Chars :=
  ["youre account", "your account is been", "please to click",
   "kindly do the needful", "urgent require", "is been",
   "has been been"].map String.data

/-- GrammarAnalyzer.analyzeGrammar: 50 for short content; otherwise 100
minus 15 per matching mistake phrase, minus 10 when more than a tenth
of the whitespace-separated words are all-caps words longer than two
characters, clamped to 0..100. -/
def analyzeGrammar (content : Chars) : Int :=
  if content.length < 10 then 50
  else
    let score := grammarMistakes.foldl
      (fun s m => if containsSub (lower content) m then s - 15 else s) (100 : Int)
    let words := splitWs content
    let allCaps :=
      (words.filter (fun w => w == w.map Char.toUpper && decide (2 < w.length))).length
    let score :=
      if (allCaps : ℚ) > (words.length : ℚ) * (1 / 10) then score - 10 else score
    max 0 (min 100 score)

/-- The special-character class of analyzeSpelling. -/
def specialChars : Chars := "!@#$%^&*()_+-=[]\x7b\x7d;\x27:\"\\|,.<>/?".data

/-- GrammarAnalyzer.analyzeSpelling: 40 for more than two runs of a
repeated character of length at least four, 45 for a special-character
density above a tenth, otherwise 70 (50 for empty content).  The source
dot pattern does not match a newline; embedded runs are counted over
all characters, which agrees on newline-free text. -/
def analyzeSpelling (content : Chars) : Int :=
  if content.isEmpty then 50
  else if decide (2 < ((runLens content).filter (fun n => decide (4 ≤ n))).length) then 40
  else if ((content.filter (fun c => specialChars.contains c)).length : ℚ) /
      (content.length : ℚ) > 1 / 10 then 45
  else 70

/-- The professionalism indicator words. -/
def professionalIndicators : List Chars :=
  ["please", "thank you", "sincerely", "best regards", "regards",
   "dear", "yours truly", "respectfully"].map String.data

/-- The greeting words of hasProfessionalGreeting. -/
def greetings : List Chars :=
  ["dear", "hello", "hi", "greetings", "good morning", "good afternoon"].map String.data

/-- The closing words of hasProfessionalClosing. -/
def closings : List Chars :=
  ["sincerely", "best regards", "regards", "yours truly", "respectfully",
   "thank you", "thanks"].map String.data

/-- GrammarAnalyzer.hasProfessionalGreeting. -/
def hasProfessionalGreeting (content : Chars) : Bool :=
  greetings.any (fun g => containsSub (lower content) g)

/-- GrammarAnalyzer.hasProfessionalClosing. -/
def hasProfessionalClosing (content : Chars) : Bool :=
  closings.any (fun c => containsSub (lower content) c)

/-- Exactly n digits from the head of the text, returning the rest. -/
def digitsFrom : Nat → Chars → Option Chars
  | 0, l => some l
  | _ + 1, [] => none
  | n + 1, c :: rest => if c.isDigit then digitsFrom n rest else none

/-- The optional separator of the phone pattern: both the alternative
that consumes one dash, dot or whitespace character and the one that
consumes nothing, as the optional quantifier backtracks. -/
def sepOpt (l : Chars) : List Chars :=
  match l with
  | c :: rest =>
    if c == '-' || c == '.' || c.isWhitespace then [c :: rest, rest] else [c :: rest]
  | [] => [([] : Chars)]

/-- The phone-number pattern (three digits, optional separator, three
digits, optional separator, four digits) at the head of the text. -/
def phoneHere (l : Chars) : Bool :=
  match digitsFrom 3 l with
  | none => false
  | some r1 =>
    (sepOpt r1).any (fun r2 =>
      match digitsFrom 3 r2 with
      | none => false
      | some r3 => (sepOpt r3).any (fun r4 => (digitsFrom 4 r4).isSome))

/-- Unanchored search for the phone-number pattern. -/
def hasPhone (content : Chars) : Bool := anySuffix phoneHere content

/-- The company-information words. -/
def companyWords : List Chars :=
  ["company", "corporation", "inc.", "llc", "limited"].map String.data

/-- GrammarAnalyzer.analyzeProfessionalism: 50 for empty content;
otherwise 50 plus 5 per indicator word, plus 20 for greeting and
closing together, plus 10 for a phone number, plus 5 for a company
word, capped at 100 (the source applies no lower clamp). -/
def analyzeProfessionalism (content : Chars) : Int :=
  if content.isEmpty then 50
  else
    let score := professionalIndicators.foldl
      (fun s ind => if containsSub (lower content) ind then s + 5 else s) (50 : Int)
    let score :=
      if hasProfessionalGreeting content && hasProfessionalClosing content
      then score + 20 else score
    let score := if hasPhone content then score + 10 else score
    let score :=
      if companyWords.any (fun w => containsSub (lower content) w)
      then score + 5 else score
    min 100 score

/-- GrammarAnalyzer.hasExcessivePunctuation: two adjacent exclamation or
question marks somewhere in the subject. -/
def hasExcessivePunctuation : Chars → Bool
  | a :: b :: rest =>
    ((a == '!' || a == '?') && (b == '!' || b == '?')) ||
      hasExcessivePunctuation (b :: rest)
  | _ => false

end GrammarAnalyzer

/-- One email record as the classifiers consume it.  The source
defaults absent fields to empty strings and, when the urls field is
absent, extracts URLs from the content; the embedding takes the URL
list of the record as given (an empty list stays empty, since an empty
array is truthy in JavaScript). -/
structure Email where
  subject : Chars
  content : Chars
  sender : Chars
  senderEmail : Chars
  urls : List Url

/-- The feature record DecisionTreeClassifier.extractFeatures builds.
The attachments flag of the source is omitted (the embedding models
emails without attachments, and no classifier condition reads it). -/
structure FeatureSet where
  hasUrls : Bool
  urlCount : Nat
  urlAuthenticityScore : Int
  hasSuspiciousUrls : Bool
  hasUrlShorteners : Bool
  hasIpAddresses : Bool
  hasHttpLinks : Bool
  urlDomainMismatch : Bool
  urgencyKeywords : Nat
  credentialKeywords : Nat
  financialKeywords : Nat
  securityKeywords : Nat
  threatKeywords : Nat
  callToActionKeywords : Nat
  suspiciousPhrases : Nat
  senderAuthenticityScore : Int
  hasSuspiciousSenderPattern : Bool
  senderDomainReputation : Int
  grammarScore : Int
  spellingScore : Int
  professionalismScore : Int
  hasProfessionalGreeting : Bool
  hasProfessionalClosing : Bool
  authorityImpersonation : Bool
  scarcityTactics : Bool
  consistencyTactics : Bool
  subjectLength : Nat
  contentLength : Nat
  hasExcessivePunctuation : Bool
  subjectAllCaps : Bool
  totalUrgencyScore : Int
  totalSuspicionScore : Int
deriving DecidableEq

/-- Risk verdict levels. -/
inductive RiskLevel
  | low
  | medium
  | high
deriving DecidableEq

/-- Classification result (riskLevel, riskScore, confidence,
reasoning). -/
structure Verdict where
  riskLevel : RiskLevel
  riskScore : Int
  confidence : ℚ
  reasoning : String
deriving DecidableEq

/-- Decision-tree shape of buildDecisionTree: an inner node holds a
condition returning true, false or null (none), and two branches; a
leaf holds a verdict. -/
inductive DTree
  | leaf (v : Verdict)
  | node (cond : FeatureSet → Option Bool) (trueBranch falseBranch : DTree)

namespace DecisionTreeClassifier

/-- DecisionTreeClassifier.extractFeatures.  The source builds and
returns the feature object directly; the two statements after the
return that would fill totalUrgencyScore and totalSuspicionScore are
unreachable, so both totals keep their initial zeros. -/
def extractFeatures (email : Email) : FeatureSet :=
  let subject := lower email.subject
  let content := lower email.content
  let senderEmail := lower email.senderEmail
  let urls := email.urls
  { hasUrls := !urls.isEmpty
    urlCount := urls.length
    urlAuthenticityScore := URLAnalyzer.analyzeAuthenticity urls senderEmail
    hasSuspiciousUrls := URLAnalyzer.hasSuspiciousPatterns urls
    hasUrlShorteners := URLAnalyzer.hasUrlShorteners urls
    hasIpAddresses := URLAnalyzer.hasIpAddresses urls
    hasHttpLinks := URLAnalyzer.hasHttpLinks urls
    urlDomainMismatch := URLAnalyzer.checkDomainMismatch urls senderEmail
    urgencyKeywords := KeywordAnalyzer.countUrgencyKeywords subject content
    credentialKeywords := KeywordAnalyzer.countCredentialKeywords subject content
    financialKeywords := KeywordAnalyzer.countFinancialKeywords subject content
    securityKeywords := KeywordAnalyzer.countSecurityKeywords subject content
    threatKeywords := KeywordAnalyzer.countThreatKeywords subject content
    callToActionKeywords := KeywordAnalyzer.countCallToActionKeywords content
    suspiciousPhrases := KeywordAnalyzer.countSuspiciousPhrases content
    senderAuthenticityScore := SenderAnalyzer.analyzeAuthenticity senderEmail
    hasSuspiciousSenderPattern := SenderAnalyzer.hasSuspiciousPattern senderEmail
    senderDomainReputation := SenderAnalyzer.analyzeDomainReputation senderEmail
    grammarScore := GrammarAnalyzer.analyzeGrammar content
    spellingScore := GrammarAnalyzer.analyzeSpelling content
    professionalismScore := GrammarAnalyzer.analyzeProfessionalism content
    hasProfessionalGreeting := GrammarAnalyzer.hasProfessionalGreeting content
    hasProfessionalClosing := GrammarAnalyzer.hasProfessionalClosing content
    authorityImpersonation := KeywordAnalyzer.hasAuthorityImpersonation content
    scarcityTactics := KeywordAnalyzer.hasScarcityTactics content
    consistencyTactics := KeywordAnalyzer.hasConsistencyTactics content
    subjectLength := subject.length
    contentLength := content.length
    hasExcessivePunctuation := GrammarAnalyzer.hasExcessivePunctuation subject
    subjectAllCaps := subject == subject.map Char.toUpper && decide (10 < subject.length)
    totalUrgencyScore := 0
    totalSuspicionScore := 0 }

/-- DecisionTreeClassifier.buildDecisionTree: the nested condition and
branch structure of the source, verbatim. -/
def buildDecisionTree : DTree :=
  .node (fun f => if f.hasUrls then some (decide (f.urlAuthenticityScore < 30)) else none)
    (.leaf ⟨.high, 85, 9/10, "Suspicious or unauthentic URLs detected in email"⟩)
    (.node (fun f => some (decide (2 ≤ f.credentialKeywords ∧ 2 ≤ f.urgencyKeywords)))
      (.leaf ⟨.high, 80, 85/100, "Credential requests combined with urgency indicators"⟩)
      (.node (fun f => some f.urlDomainMismatch)
        (.leaf ⟨.high, 75, 8/10, "URL domain does not match sender domain"⟩)
        (.node (fun f => some (decide (20 ≤ f.totalSuspicionScore)))
          (.leaf ⟨.high, 70, 75/100, "Multiple suspicious indicators detected"⟩)
          (.node (fun f => some (decide (f.senderAuthenticityScore < 40 ∧
              (1 ≤ f.credentialKeywords ∨ 1 ≤ f.securityKeywords))))
            (.leaf ⟨.medium, 55, 7/10, "Suspicious sender with risk indicators"⟩)
            (.node (fun f => some (decide (15 ≤ f.totalUrgencyScore ∧
                f.professionalismScore < 60)))
              (.leaf ⟨.medium, 50, 65/100, "High urgency with low professionalism indicators"⟩)
              (.node (fun f => some (f.hasSuspiciousUrls &&
                  decide (30 ≤ f.urlAuthenticityScore) && decide (f.urlAuthenticityScore < 60)))
                (.leaf ⟨.medium, 45, 6/10, "Some suspicious URL patterns detected"⟩)
                (.node (fun f => some (decide (f.grammarScore < 50 ∧
                    (1 ≤ f.credentialKeywords ∨ 1 ≤ f.financialKeywords))))
                  (.leaf ⟨.medium, 40, 55/100, "Poor grammar combined with risk keywords"⟩)
                  (.node (fun f => some (decide (70 ≤ f.professionalismScore ∧
                      60 ≤ f.grammarScore ∧ 60 ≤ f.senderAuthenticityScore)))
                    (.leaf ⟨.low, 25, 8/10, "Professional email with good authenticity indicators"⟩)
                    (.leaf ⟨.low, 30, 6/10, "No major risk indicators detected"⟩)))))))))

/-- DecisionTreeClassifier.traverseTree: take the true branch only on a
true condition; both false and null fall through to the false branch.
Every tree of the DTree type is well-formed, so the source's
unable-to-classify fallback is unreachable and not modelled. -/
def traverseTree (features : FeatureSet) : DTree → Verdict
  | .leaf v => v
  | .node cond t f =>
    match cond features with
    | some true => traverseTree features t
    | _ => traverseTree features f

/-- Classification of a feature record: traverse the hardcoded tree. -/
def classifyFeatures (features : FeatureSet) : Verdict :=
  traverseTree features buildDecisionTree

/-- DecisionTreeClassifier.classify: extract features, traverse the
tree (the feature echo in the source result is dropped). -/
def classify (email : Email) : Verdict :=
  classifyFeatures (extractFeatures email)

end DecisionTreeClassifier

/-- Decision-list reading of the specification's rule table: the nine
ordered rules with their verdicts, evaluated first match wins, with the
tenth (default) verdict when none matches.  The rule predicates are the
conditions of the source tree, in the specification's priority order. -/
def specRules : List ((FeatureSet → Bool) × Verdict) :=
  [ (fun f => f.hasUrls && decide (f.urlAuthenticityScore < 30),
      ⟨.high, 85, 9/10, "Suspicious or unauthentic URLs detected in email"⟩),
    (fun f => decide (2 ≤ f.credentialKeywords ∧ 2 ≤ f.urgencyKeywords),
      ⟨.high, 80, 85/100, "Credential requests combined with urgency indicators"⟩),
    (fun f => f.urlDomainMismatch,
      ⟨.high, 75, 8/10, "URL domain does not match sender domain"⟩),
    (fun f => decide (20 ≤ f.totalSuspicionScore),
      ⟨.high, 70, 75/100, "Multiple suspicious indicators detected"⟩),
    (fun f => decide (f.senderAuthenticityScore < 40 ∧
        (1 ≤ f.credentialKeywords ∨ 1 ≤ f.securityKeywords)),
      ⟨.medium, 55, 7/10, "Suspicious sender with risk indicators"⟩),
    (fun f => decide (15 ≤ f.totalUrgencyScore ∧ f.professionalismScore < 60),
      ⟨.medium, 50, 65/100, "High urgency with low professionalism indicators"⟩),
    (fun f => f.hasSuspiciousUrls && decide (30 ≤ f.urlAuthenticityScore) &&
        decide (f.urlAuthenticityScore < 60),
      ⟨.medium, 45, 6/10, "Some suspicious URL patterns detected"⟩),
    (fun f => decide (f.grammarScore < 50 ∧
        (1 ≤ f.credentialKeywords ∨ 1 ≤ f.financialKeywords)),
      ⟨.medium, 40, 55/100, "Poor grammar combined with risk keywords"⟩),
    (fun f => decide (70 ≤ f.professionalismScore ∧ 60 ≤ f.grammarScore ∧
        60 ≤ f.senderAuthenticityScore),
      ⟨.low, 25, 8/10, "Professional email with good authenticity indicators"⟩) ]

/-- First-match evaluation of an ordered rule list with a default. -/
def firstMatch (f : FeatureSet) : List ((FeatureSet → Bool) × Verdict) → Verdict → Verdict
  | [], dflt => dflt
  | (p, v) :: rest, dflt => if p f then v else firstMatch f rest dflt

/-- The specification's decision-list classifier: the nine rules in
priority order with the default low verdict. -/
def specClassify (f : FeatureSet) : Verdict :=
  firstMatch f specRules ⟨.low, 30, 6/10, "No major risk indicators detected"⟩

/-- Modelled from the spec: the total urgency score the Design Notes
weight table prescribes, which is also what the unreachable statements
after the return in extractFeatures would compute. -/
def intendedTotalUrgencyScore (f : FeatureSet) : Int :=
  (f.urgencyKeywords : Int) * 3 +
  (if f.hasExcessivePunctuation then 5 else 0) +
  (if f.subjectAllCaps then 8 else 0)

/-- Modelled from the spec: the total suspicion score the Design Notes
weight table prescribes, which is also what the unreachable statements
after the return in extractFeatures would compute. -/
def intendedTotalSuspicionScore (f : FeatureSet) : Int :=
  (f.credentialKeywords : Int) * 4 + (f.securityKeywords : Int) * 3 +
  (f.threatKeywords : Int) * 3 + (f.callToActionKeywords : Int) * 2 +
  (if f.urlAuthenticityScore < 50 then 10 else 0) +
  (if f.senderAuthenticityScore < 50 then 8 else 0)

namespace DefenseAgent

/-- The defense agent's five-word urgency vocabulary. -/
def urgencyKeywordList : List Chars :=
  ["urgent", "immediate", "critical", "asap", "action required"].map String.data

/-- The defense agent's four-word credential vocabulary. -/
def credentialKeywordList : List Chars :=
  ["password", "credentials", "login", "verify account"].map String.data

/-- The defense agent's three-phrase security vocabulary. -/
def securityKeywordList : List Chars :=
  ["security breach", "unauthorized access", "suspicious activity"].map String.data

/-- The defense agent's known legitimate sender domains. -/
def knownLegitimateDomains : List Chars :=
  ["securebank.com", "firstnational.com", "metrocu.org",
   "pacifictrust.com", "communityfirst.com"].map String.data

/-- AutonomousDefenseAgent.generateReasoning (the score and feature
arguments of the source are ignored there beyond the level). -/
def generateReasoning (riskLevel : RiskLevel) : String :=
  match riskLevel with
  | .high => "Suspicious or unauthentic URLs detected in email"
  | .medium => "Suspicious sender with risk indicators"
  | .low => "No major risk indicators detected"

/-- AutonomousDefenseAgent.classifyEmail: the compact inline scorer.
Base score 25; a URL-authenticity bucket delta; one keyword-combination
delta (keyword counts are how many vocabulary entries appear, not
occurrence counts); small sender deltas; clamp; threshold into a level
at 75 and 50. -/
def classifyEmail (email : Email) : Verdict :=
  let subject := lower email.subject
  let content := lower email.content
  let senderEmail := lower email.senderEmail
  let urls := email.urls
  let riskScore : Int := 25
  let riskScore :=
    if urls.isEmpty then riskScore
    else
      let ua := analyzeUrlAuthenticity urls senderEmail
      if ua < 30 then riskScore + 45
      else if ua < 60 then riskScore + 30
      else if ua < 80 then riskScore + 15
      else if ua < 100 then riskScore + 5
      else riskScore
  let urgencyCount := (urgencyKeywordList.filter
    (fun kw => containsSub subject kw || containsSub content kw)).length
  let credentialCount := (credentialKeywordList.filter
    (fun kw => containsSub subject kw || containsSub content kw)).length
  let securityCount := (securityKeywordList.filter
    (fun kw => containsSub content kw)).length
  let riskScore :=
    if 2 ≤ urgencyCount ∧ 2 ≤ credentialCount then riskScore + 35
    else if 2 ≤ credentialCount ∧ 1 ≤ urgencyCount then riskScore + 30
    else if 1 ≤ credentialCount ∧ 1 ≤ urgencyCount then riskScore + 20
    else if 1 ≤ securityCount ∧ 1 ≤ urgencyCount then riskScore + 18
    else if 1 ≤ securityCount then riskScore + 12
    else if 1 ≤ credentialCount then riskScore + 8
    else if 2 ≤ urgencyCount then riskScore + 10
    else if 1 ≤ urgencyCount then riskScore + 5
    else riskScore
  let riskScore :=
    if containsSub senderEmail "noreply".data ||
        containsSub senderEmail "no-reply".data then riskScore + 3 else riskScore
  let riskScore :=
    match emailDomain senderEmail with
    | some d =>
      if !d.isEmpty && !(knownLegitimateDomains.contains d) then riskScore + 10
      else riskScore
    | none => riskScore
  let riskScore := min 100 (max 0 riskScore)
  let riskLevel :=
    if 75 ≤ riskScore then RiskLevel.high
    else if 50 ≤ riskScore then RiskLevel.medium
    else RiskLevel.low
  { riskLevel := riskLevel
    riskScore := riskScore
    confidence := if 70 < riskScore then 9/10 else if 40 < riskScore then 7/10 else 6/10
    reasoning := generateReasoning riskLevel }

end DefenseAgent

namespace StrategyTrainer

/-- Minimum attempts before a score is trusted
(minAttemptsForLearning). -/
def minAttemptsForLearning : Nat := 3

/-- Decay factor for old results (learningDecay). -/
def learningDecay : ℚ := 95 / 100

/-- One strategy entry of the ledger (strategyScores values).  The
lastUpdated timestamp of the source carries no scoring information and
is omitted. -/
structure StrategyStats where
  attempts : Nat
  successes : Nat
  bypassRate : ℚ
  clickRate : ℚ
  score : ℚ
deriving DecidableEq

/-- One persona entry of the ledger (personaVulnerabilities values). -/
structure PersonaStats where
  attempts : Nat
  successes : Nat
  bypassRate : ℚ
  clickRate : ℚ
  vulnerabilityScore : ℚ
deriving DecidableEq

/-- One combination entry of the ledger (combinations values, which
carry no derived score). -/
structure ComboStats where
  attempts : Nat
  successes : Nat
  bypassRate : ℚ
  clickRate : ℚ
deriving DecidableEq

/-- One strategy tuple (model, attackLevel, urgencyLevel). -/
structure Strategy where
  model : String
  attackLevel : String
  urgencyLevel : String
deriving DecidableEq

/-- StrategyTrainer.getStrategyKey. -/
def getStrategyKey (s : Strategy) : String :=
  s.model ++ "|" ++ s.attackLevel ++ "|" ++ s.urgencyLevel

/-- StrategyTrainer.getCombinationKey. -/
def getCombinationKey (s : Strategy) (personaId : String) : String :=
  getStrategyKey s ++ "|" ++ personaId

/-- Default bypass seed from the attack level
(initializeDefaultScores): expert 40, advanced 30, basic 20, anything
else 20. -/
def defaultBypass (attackLevel : String) : ℚ :=
  if attackLevel == "expert" then 40
  else if attackLevel == "advanced" then 30
  else if attackLevel == "basic" then 20
  else 20

/-- Default-seeded strategy entry: zero attempts and successes, the
attack-level seed as both bypassRate and score, zero clickRate. -/
def defaultStrategyStats (attackLevel : String) : StrategyStats :=
  { attempts := 0
    successes := 0
    bypassRate := defaultBypass attackLevel
    clickRate := 0
    score := defaultBypass attackLevel }

/-- Default vulnerability seed from the access level
(initializeDefaultScores): Critical 50, High 40, Medium 30, Low 20,
anything else 30. -/
def defaultVulnerability (accessLevel : String) : ℚ :=
  if accessLevel == "Critical" then 50
  else if accessLevel == "High" then 40
  else if accessLevel == "Medium" then 30
  else if accessLevel == "Low" then 20
  else 30

/-- Default-seeded persona entry. -/
def defaultPersonaStats (accessLevel : String) : PersonaStats :=
  { attempts := 0
    successes := 0
    bypassRate := defaultVulnerability accessLevel
    clickRate := 0
    vulnerabilityScore := defaultVulnerability accessLevel }

/-- StrategyTrainer.calculateSuccessScore: rates scaled to fractions,
combined with the 70/30 bypass/click weighting, scaled back to the
0..100 range.  This is the score recomputed after every learning
update. -/
def calculateSuccessScore (bypassRate clickRate : ℚ) : ℚ :=
  (bypassRate / 100 * (7 / 10) + clickRate / 100 * (3 / 10)) * 100

/-- One rate update inside learnFromCycle; the attempts argument is the
counter after its increment.  Above minAttemptsForLearning the
exponential-decay branch runs, otherwise the running-mean branch. -/
def updatedRate (oldRate : ℚ) (attempts : Nat) (observed : Bool) : ℚ :=
  if minAttemptsForLearning < attempts then
    oldRate * learningDecay +
      (if observed then 100 * (1 - learningDecay) else 0 * (1 - learningDecay))
  else
    (oldRate * ((attempts - 1 : Nat) : ℚ) + (if observed then 100 else 0)) /
      (attempts : ℚ)

/-- The per-email update of one strategy entry inside learnFromCycle:
increment attempts, update both rates, count a success on bypass,
recompute the 70/30 composite score. -/
def recordStrategyOutcome (d : StrategyStats) (bypassed clicked : Bool) : StrategyStats :=
  let attempts := d.attempts + 1
  let bypassRate := updatedRate d.bypassRate attempts bypassed
  let clickRate := updatedRate d.clickRate attempts clicked
  { attempts := attempts
    successes := d.successes + (if bypassed then 1 else 0)
    bypassRate := bypassRate
    clickRate := clickRate
    score := calculateSuccessScore bypassRate clickRate }

/-- The per-email update of one persona entry inside learnFromCycle
(identical arithmetic, with the composite stored as
vulnerabilityScore). -/
def recordPersonaOutcome (d : PersonaStats) (bypassed clicked : Bool) : PersonaStats :=
  let attempts := d.attempts + 1
  let bypassRate := updatedRate d.bypassRate attempts bypassed
  let clickRate := updatedRate d.clickRate attempts clicked
  { attempts := attempts
    successes := d.successes + (if bypassed then 1 else 0)
    bypassRate := bypassRate
    clickRate := clickRate
    vulnerabilityScore := calculateSuccessScore bypassRate clickRate }

/-- The per-email update of one combination entry inside learnFromCycle
(no derived score). -/
def recordComboOutcome (d : ComboStats) (bypassed clicked : Bool) : ComboStats :=
  let attempts := d.attempts + 1
  { attempts := attempts
    successes := d.successes + (if bypassed then 1 else 0)
    bypassRate := updatedRate d.bypassRate attempts bypassed
    clickRate := updatedRate d.clickRate attempts clicked }

/-- Iterated strategy record: one learning update per outcome, in
order. -/
def recordStrategyMany (d : StrategyStats) (outcomes : List (Bool × Bool)) : StrategyStats :=
  outcomes.foldl (fun d o => recordStrategyOutcome d o.1 o.2) d

/-- Iterated persona record. -/
def recordPersonaMany (d : PersonaStats) (outcomes : List (Bool × Bool)) : PersonaStats :=
  outcomes.foldl (fun d o => recordPersonaOutcome d o.1 o.2) d

/-- One event attached to an inbox record. -/
structure InboxEvent where
  event : String
  phantom : Bool

/-- One record of the shared inbox as getEmailStatuses reads it:
status is none when the field is absent or null. -/
structure InboxEmail where
  id : String
  status : Option String
  clicked : Bool
  events : List InboxEvent

/-- A bypass/click outcome. -/
structure Outcome where
  bypassed : Bool
  clicked : Bool
deriving DecidableEq

/-- Outcome derived from one inbox record (the body of
getEmailStatuses): bypassed unless the status is blocked or reported,
clicked when the clicked flag is set or a non-phantom clicked event is
present. -/
def outcomeOfEmail (e : InboxEmail) : Outcome :=
  { bypassed := e.status == some "delivered" || e.status == none ||
      (e.status != some "blocked" && e.status != some "reported")
    clicked := e.clicked || e.events.any (fun ev => ev.event == "clicked" && !ev.phantom) }

/-- getEmailStatuses for a single id.  The inbox map keeps the last
record carrying a given id (later writes overwrite earlier ones); an id
with no record gets the assumed-failure outcome, exactly as an id
missing from the returned status map does in learnFromCycle. -/
def emailStatusFor (inbox : List InboxEmail) (emailId : String) : Outcome :=
  match inbox.reverse.find? (fun e => e.id == emailId) with
  | some e => outcomeOfEmail e
  | none => { bypassed := false, clicked := false }

/-- One generated email as learnFromCycle consumes it; targetPersonaId
is the persona id normalized to a string, none when the email has no
target persona. -/
structure GeneratedEmail where
  id : String
  model : String
  attackLevel : String
  urgencyLevel : String
  targetPersonaId : Option String

/-- The three keyed maps of the persisted learning state. -/
structure Ledger where
  strategyScores : String → Option StrategyStats
  personaVulnerabilities : String → Option PersonaStats
  combinations : String → Option ComboStats

/-- Fresh zero entry created by learnFromCycle for an unseen strategy
key. -/
def freshStrategyStats : StrategyStats :=
  { attempts := 0, successes := 0, bypassRate := 0, clickRate := 0, score := 0 }

/-- Fresh zero entry for an unseen persona key. -/
def freshPersonaStats : PersonaStats :=
  { attempts := 0, successes := 0, bypassRate := 0, clickRate := 0, vulnerabilityScore := 0 }

/-- Fresh zero entry for an unseen combination key. -/
def freshComboStats : ComboStats :=
  { attempts := 0, successes := 0, bypassRate := 0, clickRate := 0 }

/-- The per-email body of learnFromCycle: read the email's current
outcome from the inbox, then update the strategy entry, and, when a
target persona is present, the persona and combination entries. -/
def learnFromEmail (inbox : List InboxEmail) (ledger : Ledger)
    (email : GeneratedEmail) : Ledger :=
  let strategy : Strategy :=
    { model := email.model, attackLevel := email.attackLevel,
      urgencyLevel := email.urgencyLevel }
  let strategyKey := getStrategyKey strategy
  let st := emailStatusFor inbox email.id
  let strategyData :=
    recordStrategyOutcome ((ledger.strategyScores strategyKey).getD freshStrategyStats)
      st.bypassed st.clicked
  let ledger :=
    { ledger with
      strategyScores := fun k =>
        if k == strategyKey then some strategyData else ledger.strategyScores k }
  match email.targetPersonaId with
  | none => ledger
  | some personaId =>
    let personaData :=
      recordPersonaOutcome
        ((ledger.personaVulnerabilities personaId).getD freshPersonaStats)
        st.bypassed st.clicked
    let comboKey := getCombinationKey strategy personaId
    let comboData :=
      recordComboOutcome ((ledger.combinations comboKey).getD freshComboStats)
        st.bypassed st.clicked
    { ledger with
      personaVulnerabilities := fun k =>
        if k == personaId then some personaData else ledger.personaVulnerabilities k
      combinations := fun k =>
        if k == comboKey then some comboData else ledger.combinations k }

/-- StrategyTrainer.learnFromCycle over the in-memory state: fold the
per-email update over the generated emails (an empty list returns the
state unchanged, as the early return does). -/
def learnFromCycle (inbox : List InboxEmail) (ledger : Ledger)
    (emailsGenerated : List GeneratedEmail) : Ledger :=
  emailsGenerated.foldl (learnFromEmail inbox) ledger

/-- One target persona profile (only the id is read by selection). -/
structure Persona where
  id : String
  name : String
  accessLevel : String
deriving DecidableEq

/-- The selection weight selectBestTargets computes for one persona:
the vulnerability score weighted by capped confidence, plus the
exploration bonus (20 per missing attempt below
minAttemptsForLearning, 10 per missing attempt below twice that, zero
for well-explored personas). -/
def targetSelectionScore (vulns : String → Option PersonaStats) (p : Persona) : ℚ :=
  let data := vulns p.id
  let attempts := (data.map (·.attempts)).getD 0
  let vulnerabilityScore := (data.map (·.vulnerabilityScore)).getD 0
  let explorationBonus : ℚ :=
    if attempts < minAttemptsForLearning then
      ((minAttemptsForLearning - attempts : Nat) : ℚ) * 20
    else if attempts < minAttemptsForLearning * 2 then
      ((minAttemptsForLearning * 2 - attempts : Nat) : ℚ) * 10
    else 0
  let confidence : ℚ := min ((attempts : ℚ) / (minAttemptsForLearning : ℚ)) (3 / 2)
  let adjustedVulnerabilityScore := vulnerabilityScore * min confidence 1
  adjustedVulnerabilityScore + explorationBonus

/-- StrategyTrainer.selectBestTargets (the exploration-bonus copy):
score every persona, sort descending by score with a stable sort (ties
keep enumeration order, as the JavaScript sort does), take the first
count, drop the scores. -/
def selectBestTargets (allPersonas : List Persona)
    (vulns : String → Option PersonaStats) (count : Nat) : List Persona :=
  let personaScores := allPersonas.map (fun p => (p, targetSelectionScore vulns p))
  let sorted := personaScores.mergeSort (fun a b => decide (b.2 ≤ a.2))
  (sorted.take count).map Prod.fst

end StrategyTrainer

/-! Concrete inputs used by scenario, counterexample and witness
theorems. -/

/-- A URL that matches only the suspicious-pattern regex, hosted on the
sender's own domain over https. -/
def suspiciousUrl : Url :=
  { host := some "x.com".data
    matchesSuspicious := true
    matchesShortCore := false
    matchesShortExtra := false
    matchesIp := false
    isHttp := false }

/-- An email with no URLs whose content carries two urgency keywords
and two credential keywords, from a trusted-domain sender. -/
def deadTotalsEmail : Email :=
  { subject := "hello".data
    content := "urgent immediate password credentials".data
    sender := "it".data
    senderEmail := "it@securebank.com".data
    urls := [] }

/-- The same shape of email used to compare the two classifier
implementations. -/
def divergenceEmail : Email :=
  { subject := "hello".data
    content := "urgent immediate password credentials".data
    sender := "it".data
    senderEmail := "it@securebank.com".data
    urls := [] }

/-- A persona the ledger has never attempted. -/
def untestedPersona : StrategyTrainer.Persona :=
  { id := "a", name := "A", accessLevel := "High" }

/-- A persona with six recorded attempts. -/
def exploredPersona : StrategyTrainer.Persona :=
  { id := "b", name := "B", accessLevel := "High" }

/-- A vulnerability map giving both personas the same maximal
vulnerability score, with zero attempts for one and six for the
other. -/
def contrastVulns : String → Option StrategyTrainer.PersonaStats := fun id =>
  if id == "a" then
    some { attempts := 0, successes := 0, bypassRate := 0, clickRate := 0,
           vulnerabilityScore := 100 }
  else if id == "b" then
    some { attempts := 6, successes := 0, bypassRate := 0, clickRate := 0,
           vulnerabilityScore := 100 }
  else none

/-- A vulnerability map giving both personas an equal, modest
vulnerability score of 30. -/
def modestVulns : String → Option StrategyTrainer.PersonaStats := fun id =>
  if id == "a" then
    some { attempts := 0, successes := 0, bypassRate := 0, clickRate := 0,
           vulnerabilityScore := 30 }
  else if id == "b" then
    some { attempts := 6, successes := 3, bypassRate := 30, clickRate := 30,
           vulnerabilityScore := 30 }
  else none

/-- A deployed email whose id is absent from the inbox below. -/
def strayEmail : StrategyTrainer.GeneratedEmail :=
  { id := "missing-1", model := "gpt", attackLevel := "expert",
    urgencyLevel := "high", targetPersonaId := some "p1" }

/-- A one-record inbox that does not contain strayEmail. -/
def smallInbox : List StrategyTrainer.InboxEmail :=
  [{ id := "other-1", status := some "delivered", clicked := true, events := [] }]

/-- The empty learning state. -/
def emptyLedger : StrategyTrainer.Ledger :=
  { strategyScores := fun _ => none
    personaVulnerabilities := fun _ => none
    combinations := fun _ => none }

/-- A feature record for scenario B: no URLs, two urgency keywords, two
credential keywords, everything else unremarkable. -/
def scenarioBFeatures : FeatureSet :=
  { hasUrls := false
    urlCount := 0
    urlAuthenticityScore := 100
    hasSuspiciousUrls := false
    hasUrlShorteners := false
    hasIpAddresses := false
    hasHttpLinks := false
    urlDomainMismatch := false
    urgencyKeywords := 2
    credentialKeywords := 2
    financialKeywords := 0
    securityKeywords := 0
    threatKeywords := 0
    callToActionKeywords := 0
    suspiciousPhrases := 0
    senderAuthenticityScore := 100
    hasSuspiciousSenderPattern := false
    senderDomainReputation := 90
    grammarScore := 100
    spellingScore := 70
    professionalismScore := 50
    hasProfessionalGreeting := false
    hasProfessionalClosing := false
    authorityImpersonation := false
    scarcityTactics := false
    consistencyTactics := false
    subjectLength := 5
    contentLength := 37
    hasExcessivePunctuation := false
    subjectAllCaps := false
    totalUrgencyScore := 0
    totalSuspicionScore := 0 }

/-!
Theorems.  Each claim theorem is named after its claim; the lemmas
before them are shared infrastructure.
-/

/-- Traversal of a leaf returns its verdict. -/
theorem traverse_leaf (v : Verdict) (f : FeatureSet) :
    DecisionTreeClassifier.traverseTree f (.leaf v) = v := rfl

/-- Traversal of a node whose condition always returns a Boolean: take
the matching branch. -/
theorem traverse_node_some (g : FeatureSet → Bool) (t e : DTree) (f : FeatureSet) :
    DecisionTreeClassifier.traverseTree f (.node (fun x => some (g x)) t e) =
      if g f then DecisionTreeClassifier.traverseTree f t
      else DecisionTreeClassifier.traverseTree f e := by
  cases h : g f <;> simp [DecisionTreeClassifier.traverseTree, h]

/-- Traversal of the root node: the tri-valued URL condition collapses
to the conjunction of having URLs and a low URL-authenticity score. -/
theorem traverse_node_url (t e : DTree) (f : FeatureSet) :
    DecisionTreeClassifier.traverseTree f
      (.node (fun x => if x.hasUrls then some (decide (x.urlAuthenticityScore < 30)) else none) t e) =
      if f.hasUrls && decide (f.urlAuthenticityScore < 30) then
        DecisionTreeClassifier.traverseTree f t
      else DecisionTreeClassifier.traverseTree f e := by
  cases hu : f.hasUrls <;> cases hd : decide (f.urlAuthenticityScore < 30) <;>
    simp [DecisionTreeClassifier.traverseTree, hu, hd]

/-- The hardcoded decision tree computes exactly the first-match
decision list of the specification's rule table. -/
theorem classifyFeatures_eq_specClassify (f : FeatureSet) :
    DecisionTreeClassifier.classifyFeatures f = specClassify f := by
  simp only [DecisionTreeClassifier.classifyFeatures,
    DecisionTreeClassifier.buildDecisionTree, traverse_node_url, traverse_node_some,
    traverse_leaf, specClassify, specRules, firstMatch]

/-- C1: the risk classifier is deterministic (it is a function of the
feature record) and evaluates its checks as the first-match decision
list of the specification's rule table, in that exact priority order
with each rule's exact verdict; and for any feature record with no
URLs, two urgency keywords and two credential keywords, rule 2 fires
with the high / 80 / 0.85 verdict. -/
theorem C1_classifier_is_decision_list :
    (∀ f : FeatureSet, DecisionTreeClassifier.classifyFeatures f = specClassify f) ∧
    (∀ f : FeatureSet, f.hasUrls = false → f.urgencyKeywords = 2 → f.credentialKeywords = 2 →
      DecisionTreeClassifier.classifyFeatures f =
        ⟨.high, 80, 85/100, "Credential requests combined with urgency indicators"⟩) := by
  refine ⟨classifyFeatures_eq_specClassify, fun f hu hurg hcred => ?_⟩
  rw [classifyFeatures_eq_specClassify]
  simp [specClassify, specRules, firstMatch, hu, hurg, hcred]

/-- Witness for C1: scenario B's concrete feature record satisfies the
hypotheses and receives the high / 80 / 0.85 verdict. -/
theorem C1_classifier_is_decision_list_witness :
    scenarioBFeatures.hasUrls = false ∧ scenarioBFeatures.urgencyKeywords = 2 ∧
    scenarioBFeatures.credentialKeywords = 2 ∧
    DecisionTreeClassifier.classifyFeatures scenarioBFeatures =
      ⟨.high, 80, 85/100, "Credential requests combined with urgency indicators"⟩ :=
  ⟨rfl, rfl, rfl, C1_classifier_is_decision_list.2 scenarioBFeatures rfl rfl rfl⟩

/-- The five-penalty loop body subtracts exactly the claimed per-URL
penalty. -/
theorem penaltyStep_eq (sd : Option Chars) (s : Int) (u : Url) :
    URLAnalyzer.penaltyStep sd s u = s - claimPenalty sd u := by
  simp only [URLAnalyzer.penaltyStep, claimPenalty]
  by_cases h1 : domainDiffers sd (URLAnalyzer.extractDomain u) = true <;>
  by_cases h2 : u.matchesSuspicious = true <;>
  by_cases h3 : (u.matchesShortCore || u.matchesShortExtra) = true <;>
  by_cases h4 : u.matchesIp = true <;>
  by_cases h5 : u.isHttp = true <;>
  simp [h1, h2, h3, h4, h5] <;> omega

/-- The agent's loop body subtracts exactly its per-URL penalty. -/
theorem agentPenaltyStep_eq (sd : Option Chars) (s : Int) (u : Url) :
    DefenseAgent.agentPenaltyStep sd s u = s - agentPenalty sd u := by
  simp only [DefenseAgent.agentPenaltyStep, agentPenalty]
  by_cases h1 : domainDiffers sd u.host = true <;>
  by_cases h2 : u.matchesShortCore = true <;>
  by_cases h3 : u.matchesIp = true <;>
  by_cases h4 : u.isHttp = true <;>
  simp [h1, h2, h3, h4] <;> omega

/-- Folding the five-penalty loop body subtracts the sum of the
per-URL penalties. -/
theorem foldl_penaltyStep (sd : Option Chars) (urls : List Url) : ∀ init : Int,
    urls.foldl (URLAnalyzer.penaltyStep sd) init =
      init - (urls.map (claimPenalty sd)).sum := by
  induction urls with
  | nil => simp
  | cons u rest ih =>
    intro init
    simp only [List.foldl_cons, List.map_cons, List.sum_cons, penaltyStep_eq, ih]
    ring

/-- Folding the agent's loop body subtracts the sum of its per-URL
penalties. -/
theorem foldl_agentPenaltyStep (sd : Option Chars) (urls : List Url) : ∀ init : Int,
    urls.foldl (DefenseAgent.agentPenaltyStep sd) init =
      init - (urls.map (agentPenalty sd)).sum := by
  induction urls with
  | nil => simp
  | cons u rest ih =>
    intro init
    simp only [List.foldl_cons, List.map_cons, List.sum_cons, agentPenaltyStep_eq, ih]
    ring

/-- URLAnalyzer.analyzeAuthenticity computes the claimed closed
form. -/
theorem analyzeAuthenticity_eq_claim (urls : List Url) (senderEmail : Chars) :
    URLAnalyzer.analyzeAuthenticity urls senderEmail =
      claimUrlAuthenticity urls senderEmail := by
  rcases urls with _ | ⟨u, rest⟩
  · simp [URLAnalyzer.analyzeAuthenticity, claimUrlAuthenticity]
  · simp only [URLAnalyzer.analyzeAuthenticity, URLAnalyzer.extractDomainFromEmail,
      claimUrlAuthenticity, List.isEmpty_cons, Bool.false_eq_true, if_false,
      foldl_penaltyStep]

/-- The agent's analyzeUrlAuthenticity computes its own closed form
(with the reduced penalty set). -/
theorem agent_analyzeUrlAuthenticity_eq (urls : List Url) (senderEmail : Chars) :
    DefenseAgent.analyzeUrlAuthenticity urls senderEmail =
      max 0 (min 100 (100 - (urls.map (agentPenalty (emailDomain senderEmail))).sum)) := by
  rcases urls with _ | ⟨u, rest⟩
  · simp [DefenseAgent.analyzeUrlAuthenticity]
  · simp only [DefenseAgent.analyzeUrlAuthenticity, List.isEmpty_cons,
      Bool.false_eq_true, if_false, foldl_agentPenaltyStep]

/-- Counterexample for C2: on a same-domain https URL matching only the
suspicious-pattern regex, the defense agent's copy of the URL score
returns 100 while the claimed five-penalty algorithm returns 75. -/
theorem C2_counterexample :
    DefenseAgent.analyzeUrlAuthenticity [suspiciousUrl] ("a@x.com".data) = 100 ∧
    claimUrlAuthenticity [suspiciousUrl] ("a@x.com".data) = 75 ∧
    DefenseAgent.analyzeUrlAuthenticity [suspiciousUrl] ("a@x.com".data) ≠
      claimUrlAuthenticity [suspiciousUrl] ("a@x.com".data) := by
  refine ⟨?_, ?_, ?_⟩ <;> decide

/-- C2 amended: the claimed five-penalty algorithm is exactly
URLAnalyzer.analyzeAuthenticity; the defense agent's inline copy
applies only the mismatch, core-shortener, IPv4 and http penalties. -/
theorem C2_url_authenticity_algorithm :
    (∀ (urls : List Url) (senderEmail : Chars),
      URLAnalyzer.analyzeAuthenticity urls senderEmail =
        claimUrlAuthenticity urls senderEmail) ∧
    (∀ (urls : List Url) (senderEmail : Chars),
      DefenseAgent.analyzeUrlAuthenticity urls senderEmail =
        max 0 (min 100 (100 - (urls.map (agentPenalty (emailDomain senderEmail))).sum))) :=
  ⟨analyzeAuthenticity_eq_claim, agent_analyzeUrlAuthenticity_eq⟩

/-- C3: on an email whose content carries two urgency and two
credential keywords, the extracted feature record has zero total
urgency and suspicion scores (the statements computing them sit after
the return and never run), while the documented weighted sums are 6 and
8. -/
theorem C3_total_scores_stuck_at_zero :
    (DecisionTreeClassifier.extractFeatures deadTotalsEmail).totalUrgencyScore = 0 ∧
    (DecisionTreeClassifier.extractFeatures deadTotalsEmail).totalSuspicionScore = 0 ∧
    intendedTotalUrgencyScore (DecisionTreeClassifier.extractFeatures deadTotalsEmail) = 6 ∧
    intendedTotalSuspicionScore (DecisionTreeClassifier.extractFeatures deadTotalsEmail) = 8 ∧
    (DecisionTreeClassifier.extractFeatures deadTotalsEmail).totalUrgencyScore ≠
      intendedTotalUrgencyScore (DecisionTreeClassifier.extractFeatures deadTotalsEmail) ∧
    (DecisionTreeClassifier.extractFeatures deadTotalsEmail).totalSuspicionScore ≠
      intendedTotalSuspicionScore (DecisionTreeClassifier.extractFeatures deadTotalsEmail) := by
  refine ⟨?_, ?_, ?_, ?_, ?_, ?_⟩ <;> decide

/-- Each claimed per-URL penalty is non-negative. -/
theorem claimPenalty_nonneg (sd : Option Chars) (u : Url) : 0 ≤ claimPenalty sd u := by
  simp only [claimPenalty]
  repeat' split
  all_goals omega

/-- Each agent per-URL penalty is non-negative. -/
theorem agentPenalty_nonneg (sd : Option Chars) (u : Url) : 0 ≤ agentPenalty sd u := by
  simp only [agentPenalty]
  repeat' split
  all_goals omega

/-- C10: both URL-authenticity scores never increase when a URL is
appended to the list, always lie in the 0..100 range, and equal 100 on
the empty URL list. -/
theorem C10_url_score_monotone_bounded :
    (∀ (urls : List Url) (u : Url) (senderEmail : Chars),
      URLAnalyzer.analyzeAuthenticity (urls ++ [u]) senderEmail ≤
        URLAnalyzer.analyzeAuthenticity urls senderEmail ∧
      DefenseAgent.analyzeUrlAuthenticity (urls ++ [u]) senderEmail ≤
        DefenseAgent.analyzeUrlAuthenticity urls senderEmail) ∧
    (∀ (urls : List Url) (senderEmail : Chars),
      0 ≤ URLAnalyzer.analyzeAuthenticity urls senderEmail ∧
      URLAnalyzer.analyzeAuthenticity urls senderEmail ≤ 100 ∧
      0 ≤ DefenseAgent.analyzeUrlAuthenticity urls senderEmail ∧
      DefenseAgent.analyzeUrlAuthenticity urls senderEmail ≤ 100) ∧
    (∀ senderEmail : Chars,
      URLAnalyzer.analyzeAuthenticity [] senderEmail = 100 ∧
      DefenseAgent.analyzeUrlAuthenticity [] senderEmail = 100) := by
  refine ⟨fun urls u senderEmail => ?_, fun urls senderEmail => ?_, fun senderEmail => ?_⟩
  · constructor
    · rw [analyzeAuthenticity_eq_claim, analyzeAuthenticity_eq_claim]
      simp only [claimUrlAuthenticity, List.map_append, List.sum_append,
        List.map_cons, List.map_nil, List.sum_cons, List.sum_nil]
      have := claimPenalty_nonneg (emailDomain senderEmail) u
      omega
    · rw [agent_analyzeUrlAuthenticity_eq, agent_analyzeUrlAuthenticity_eq]
      simp only [List.map_append, List.sum_append, List.map_cons, List.map_nil,
        List.sum_cons, List.sum_nil]
      have := agentPenalty_nonneg (emailDomain senderEmail) u
      omega
  · rw [analyzeAuthenticity_eq_claim, agent_analyzeUrlAuthenticity_eq]
    simp only [claimUrlAuthenticity]
    omega
  · exact ⟨rfl, rfl⟩

/-- Counterexample for C4: recording one bypassed, unclicked outcome on
the default expert entry yields rates 100 / 0 and persisted score 70,
whereas the claimed 0.6/0.4 weighting would give 60. -/
theorem C4_counterexample :
    (StrategyTrainer.recordStrategyOutcome
      (StrategyTrainer.defaultStrategyStats "expert") true false).score = 70 ∧
    (6/10 : ℚ) * (StrategyTrainer.recordStrategyOutcome
        (StrategyTrainer.defaultStrategyStats "expert") true false).bypassRate +
      (4/10) * (StrategyTrainer.recordStrategyOutcome
        (StrategyTrainer.defaultStrategyStats "expert") true false).clickRate = 60 ∧
    (StrategyTrainer.recordStrategyOutcome
        (StrategyTrainer.defaultStrategyStats "expert") true false).score ≠
      (6/10 : ℚ) * (StrategyTrainer.recordStrategyOutcome
          (StrategyTrainer.defaultStrategyStats "expert") true false).bypassRate +
        (4/10) * (StrategyTrainer.recordStrategyOutcome
          (StrategyTrainer.defaultStrategyStats "expert") true false).clickRate := by
  refine ⟨?_, ?_, ?_⟩ <;>
    norm_num [StrategyTrainer.recordStrategyOutcome, StrategyTrainer.defaultStrategyStats,
      StrategyTrainer.defaultBypass, StrategyTrainer.updatedRate,
      StrategyTrainer.calculateSuccessScore, StrategyTrainer.minAttemptsForLearning,
      StrategyTrainer.learningDecay]

/-- C4 amended: after every record/learning update, the persisted
per-strategy score and per-persona vulnerability score equal
0.7 times bypassRate plus 0.3 times clickRate (the 0.6/0.4 weighting
belongs to the offline restore scripts, not to the learning update). -/
theorem C4_persisted_score_weighting :
    (∀ (d : StrategyTrainer.StrategyStats) (b c : Bool),
      (StrategyTrainer.recordStrategyOutcome d b c).score =
        (7/10) * (StrategyTrainer.recordStrategyOutcome d b c).bypassRate +
          (3/10) * (StrategyTrainer.recordStrategyOutcome d b c).clickRate) ∧
    (∀ (d : StrategyTrainer.PersonaStats) (b c : Bool),
      (StrategyTrainer.recordPersonaOutcome d b c).vulnerabilityScore =
        (7/10) * (StrategyTrainer.recordPersonaOutcome d b c).bypassRate +
          (3/10) * (StrategyTrainer.recordPersonaOutcome d b c).clickRate) := by
  constructor
  · intro d b c
    simp only [StrategyTrainer.recordStrategyOutcome, StrategyTrainer.calculateSuccessScore]
    ring
  · intro d b c
    simp only [StrategyTrainer.recordPersonaOutcome, StrategyTrainer.calculateSuccessScore]
    ring

/-- C5: each rate update uses exponential decay with factor 0.95 once
the incremented attempts counter exceeds minAttemptsForLearning, and
the running-mean recurrence otherwise. -/
theorem C5_rate_update_formulas (d : StrategyTrainer.StrategyStats) (b c : Bool) :
    (StrategyTrainer.minAttemptsForLearning < d.attempts + 1 →
      (StrategyTrainer.recordStrategyOutcome d b c).bypassRate =
        d.bypassRate * (95/100) + (if b then (100 : ℚ) else 0) * (5/100) ∧
      (StrategyTrainer.recordStrategyOutcome d b c).clickRate =
        d.clickRate * (95/100) + (if c then (100 : ℚ) else 0) * (5/100)) ∧
    (d.attempts + 1 ≤ StrategyTrainer.minAttemptsForLearning →
      (StrategyTrainer.recordStrategyOutcome d b c).bypassRate =
        (d.bypassRate * (d.attempts : ℚ) + (if b then (100 : ℚ) else 0)) /
          ((d.attempts : ℚ) + 1) ∧
      (StrategyTrainer.recordStrategyOutcome d b c).clickRate =
        (d.clickRate * (d.attempts : ℚ) + (if c then (100 : ℚ) else 0)) /
          ((d.attempts : ℚ) + 1)) := by
  constructor
  · intro h
    simp only [StrategyTrainer.recordStrategyOutcome, StrategyTrainer.updatedRate,
      StrategyTrainer.learningDecay, if_pos h]
    constructor
    · cases b <;> norm_num
    · cases c <;> norm_num
  · intro h
    have hnot : ¬ StrategyTrainer.minAttemptsForLearning < d.attempts + 1 := by omega
    simp only [StrategyTrainer.recordStrategyOutcome, StrategyTrainer.updatedRate,
      StrategyTrainer.learningDecay, if_neg hnot, Nat.add_sub_cancel]
    push_cast
    exact ⟨rfl, rfl⟩

/-- Witness for C5: with five prior attempts the decay branch gives
52.5 from an old rate of 50 on a bypass; with zero prior attempts the
running-mean branch gives 100. -/
theorem C5_rate_update_formulas_witness :
    (StrategyTrainer.recordStrategyOutcome ⟨5, 2, 50, 20, 41⟩ true false).bypassRate = 105/2 ∧
    (StrategyTrainer.recordStrategyOutcome ⟨0, 0, 20, 0, 14⟩ true false).bypassRate = 100 := by
  constructor
  · have h := (C5_rate_update_formulas ⟨5, 2, 50, 20, 41⟩ true false).1 (by decide)
    rw [h.1]
    norm_num
  · have h := (C5_rate_update_formulas ⟨0, 0, 20, 0, 14⟩ true false).2 (by decide)
    rw [h.1]
    norm_num

/-- Both update branches keep a rate inside the 0..100 range, given a
positive attempts counter. -/
theorem updatedRate_bounds (r : ℚ) (n : Nat) (o : Bool) (h0 : 0 ≤ r) (h1 : r ≤ 100)
    (hn : 1 ≤ n) :
    0 ≤ StrategyTrainer.updatedRate r n o ∧ StrategyTrainer.updatedRate r n o ≤ 100 := by
  unfold StrategyTrainer.updatedRate StrategyTrainer.learningDecay
  split
  · cases o <;> constructor <;> simp <;> nlinarith
  · have hm : (1 : ℚ) ≤ (n : ℚ) := by exact_mod_cast hn
    have hm0 : (0 : ℚ) < (n : ℚ) := by linarith
    have hc : ((n - 1 : Nat) : ℚ) = (n : ℚ) - 1 := by
      push_cast [Nat.cast_sub hn]
      ring
    rw [hc]
    have hobs0 : (0 : ℚ) ≤ (if o then (100 : ℚ) else 0) := by cases o <;> norm_num
    have hobs1 : (if o then (100 : ℚ) else 0) ≤ 100 := by cases o <;> norm_num
    constructor
    · apply div_nonneg _ (le_of_lt hm0)
      nlinarith
    · rw [div_le_iff₀ hm0]
      nlinarith

/-- One record step: attempts up by one, both rates stay inside the
0..100 range. -/
theorem recordStrategyOutcome_bounds (d : StrategyTrainer.StrategyStats) (b c : Bool)
    (h0 : 0 ≤ d.bypassRate) (h1 : d.bypassRate ≤ 100)
    (h2 : 0 ≤ d.clickRate) (h3 : d.clickRate ≤ 100) :
    (StrategyTrainer.recordStrategyOutcome d b c).attempts = d.attempts + 1 ∧
    0 ≤ (StrategyTrainer.recordStrategyOutcome d b c).bypassRate ∧
    (StrategyTrainer.recordStrategyOutcome d b c).bypassRate ≤ 100 ∧
    0 ≤ (StrategyTrainer.recordStrategyOutcome d b c).clickRate ∧
    (StrategyTrainer.recordStrategyOutcome d b c).clickRate ≤ 100 := by
  have hb := updatedRate_bounds d.bypassRate (d.attempts + 1) b h0 h1 (by omega)
  have hc := updatedRate_bounds d.clickRate (d.attempts + 1) c h2 h3 (by omega)
  exact ⟨rfl, hb.1, hb.2, hc.1, hc.2⟩

/-- The persona record step enjoys the same bounds. -/
theorem recordPersonaOutcome_bounds (d : StrategyTrainer.PersonaStats) (b c : Bool)
    (h0 : 0 ≤ d.bypassRate) (h1 : d.bypassRate ≤ 100)
    (h2 : 0 ≤ d.clickRate) (h3 : d.clickRate ≤ 100) :
    (StrategyTrainer.recordPersonaOutcome d b c).attempts = d.attempts + 1 ∧
    0 ≤ (StrategyTrainer.recordPersonaOutcome d b c).bypassRate ∧
    (StrategyTrainer.recordPersonaOutcome d b c).bypassRate ≤ 100 ∧
    0 ≤ (StrategyTrainer.recordPersonaOutcome d b c).clickRate ∧
    (StrategyTrainer.recordPersonaOutcome d b c).clickRate ≤ 100 := by
  have hb := updatedRate_bounds d.bypassRate (d.attempts + 1) b h0 h1 (by omega)
  have hc := updatedRate_bounds d.clickRate (d.attempts + 1) c h2 h3 (by omega)
  exact ⟨rfl, hb.1, hb.2, hc.1, hc.2⟩

/-- Iterated strategy records: attempts grows by the number of
outcomes, rates stay inside the 0..100 range. -/
theorem recordStrategyMany_invariant (outcomes : List (Bool × Bool)) :
    ∀ d : StrategyTrainer.StrategyStats,
      0 ≤ d.bypassRate → d.bypassRate ≤ 100 → 0 ≤ d.clickRate → d.clickRate ≤ 100 →
      (StrategyTrainer.recordStrategyMany d outcomes).attempts =
          d.attempts + outcomes.length ∧
        0 ≤ (StrategyTrainer.recordStrategyMany d outcomes).bypassRate ∧
        (StrategyTrainer.recordStrategyMany d outcomes).bypassRate ≤ 100 ∧
        0 ≤ (StrategyTrainer.recordStrategyMany d outcomes).clickRate ∧
        (StrategyTrainer.recordStrategyMany d outcomes).clickRate ≤ 100 := by
  induction outcomes with
  | nil =>
    intro d h0 h1 h2 h3
    exact ⟨rfl, h0, h1, h2, h3⟩
  | cons o rest ih =>
    intro d h0 h1 h2 h3
    have hstep := recordStrategyOutcome_bounds d o.1 o.2 h0 h1 h2 h3
    have htail := ih (StrategyTrainer.recordStrategyOutcome d o.1 o.2)
      hstep.2.1 hstep.2.2.1 hstep.2.2.2.1 hstep.2.2.2.2
    refine ⟨?_, htail.2.1, htail.2.2.1, htail.2.2.2.1, htail.2.2.2.2⟩
    have := htail.1
    simp only [StrategyTrainer.recordStrategyMany, List.foldl_cons] at this ⊢
    rw [this, hstep.1]
    simp [List.length_cons]
    omega

/-- Iterated persona records: the same invariant. -/
theorem recordPersonaMany_invariant (outcomes : List (Bool × Bool)) :
    ∀ d : StrategyTrainer.PersonaStats,
      0 ≤ d.bypassRate → d.bypassRate ≤ 100 → 0 ≤ d.clickRate → d.clickRate ≤ 100 →
      (StrategyTrainer.recordPersonaMany d outcomes).attempts =
          d.attempts + outcomes.length ∧
        0 ≤ (StrategyTrainer.recordPersonaMany d outcomes).bypassRate ∧
        (StrategyTrainer.recordPersonaMany d outcomes).bypassRate ≤ 100 ∧
        0 ≤ (StrategyTrainer.recordPersonaMany d outcomes).clickRate ∧
        (StrategyTrainer.recordPersonaMany d outcomes).clickRate ≤ 100 := by
  induction outcomes with
  | nil =>
    intro d h0 h1 h2 h3
    exact ⟨rfl, h0, h1, h2, h3⟩
  | cons o rest ih =>
    intro d h0 h1 h2 h3
    have hstep := recordPersonaOutcome_bounds d o.1 o.2 h0 h1 h2 h3
    have htail := ih (StrategyTrainer.recordPersonaOutcome d o.1 o.2)
      hstep.2.1 hstep.2.2.1 hstep.2.2.2.1 hstep.2.2.2.2
    refine ⟨?_, htail.2.1, htail.2.2.1, htail.2.2.2.1, htail.2.2.2.2⟩
    have := htail.1
    simp only [StrategyTrainer.recordPersonaMany, List.foldl_cons] at this ⊢
    rw [this, hstep.1]
    simp [List.length_cons]
    omega

/-- Every attack-level seed lies in the 0..100 range. -/
theorem defaultBypass_bounds (attackLevel : String) :
    0 ≤ StrategyTrainer.defaultBypass attackLevel ∧
      StrategyTrainer.defaultBypass attackLevel ≤ 100 := by
  unfold StrategyTrainer.defaultBypass
  repeat' split
  all_goals norm_num

/-- Every access-level seed lies in the 0..100 range. -/
theorem defaultVulnerability_bounds (accessLevel : String) :
    0 ≤ StrategyTrainer.defaultVulnerability accessLevel ∧
      StrategyTrainer.defaultVulnerability accessLevel ≤ 100 := by
  unfold StrategyTrainer.defaultVulnerability
  repeat' split
  all_goals norm_num

/-- C6: starting from any default-seeded entry, N record steps leave
the attempts counter at exactly N, and bypassRate and clickRate lie in
the 0..100 range after every update (an arbitrary outcome list covers
every prefix of a longer history). -/
theorem C6_attempts_exact_rates_bounded :
    (∀ (attackLevel : String) (outcomes : List (Bool × Bool)),
      (StrategyTrainer.recordStrategyMany
          (StrategyTrainer.defaultStrategyStats attackLevel) outcomes).attempts =
        outcomes.length ∧
      0 ≤ (StrategyTrainer.recordStrategyMany
          (StrategyTrainer.defaultStrategyStats attackLevel) outcomes).bypassRate ∧
      (StrategyTrainer.recordStrategyMany
          (StrategyTrainer.defaultStrategyStats attackLevel) outcomes).bypassRate ≤ 100 ∧
      0 ≤ (StrategyTrainer.recordStrategyMany
          (StrategyTrainer.defaultStrategyStats attackLevel) outcomes).clickRate ∧
      (StrategyTrainer.recordStrategyMany
          (StrategyTrainer.defaultStrategyStats attackLevel) outcomes).clickRate ≤ 100) ∧
    (∀ (accessLevel : String) (outcomes : List (Bool × Bool)),
      (StrategyTrainer.recordPersonaMany
          (StrategyTrainer.defaultPersonaStats accessLevel) outcomes).attempts =
        outcomes.length ∧
      0 ≤ (StrategyTrainer.recordPersonaMany
          (StrategyTrainer.defaultPersonaStats accessLevel) outcomes).bypassRate ∧
      (StrategyTrainer.recordPersonaMany
          (StrategyTrainer.defaultPersonaStats accessLevel) outcomes).bypassRate ≤ 100 ∧
      0 ≤ (StrategyTrainer.recordPersonaMany
          (StrategyTrainer.defaultPersonaStats accessLevel) outcomes).clickRate ∧
      (StrategyTrainer.recordPersonaMany
          (StrategyTrainer.defaultPersonaStats accessLevel) outcomes).clickRate ≤ 100) := by
  constructor
  · intro attackLevel outcomes
    have hseed := defaultBypass_bounds attackLevel
    have h := recordStrategyMany_invariant outcomes
      (StrategyTrainer.defaultStrategyStats attackLevel)
      hseed.1 hseed.2 (by norm_num [StrategyTrainer.defaultStrategyStats])
      (by norm_num [StrategyTrainer.defaultStrategyStats])
    refine ⟨?_, h.2.1, h.2.2.1, h.2.2.2.1, h.2.2.2.2⟩
    have := h.1
    simpa [StrategyTrainer.defaultStrategyStats] using this
  · intro accessLevel outcomes
    have hseed := defaultVulnerability_bounds accessLevel
    have h := recordPersonaMany_invariant outcomes
      (StrategyTrainer.defaultPersonaStats accessLevel)
      hseed.1 hseed.2 (by norm_num [StrategyTrainer.defaultPersonaStats])
      (by norm_num [StrategyTrainer.defaultPersonaStats])
    refine ⟨?_, h.2.1, h.2.2.1, h.2.2.2.1, h.2.2.2.2⟩
    have := h.1
    simpa [StrategyTrainer.defaultPersonaStats] using this

/-- C9: a deployed email whose id is absent from the shared inbox is
treated as the failure outcome (not bypassed, not clicked) and is still
recorded: the attempts counters of its strategy entry, and of its
persona entry when a target persona is present, each grow by one. -/
theorem C9_missing_email_still_recorded (inbox : List StrategyTrainer.InboxEmail)
    (ledger : StrategyTrainer.Ledger) (email : StrategyTrainer.GeneratedEmail)
    (habsent : ∀ e ∈ inbox, e.id ≠ email.id) :
    StrategyTrainer.emailStatusFor inbox email.id = ⟨false, false⟩ ∧
    ((StrategyTrainer.learnFromEmail inbox ledger email).strategyScores
        (StrategyTrainer.getStrategyKey
          ⟨email.model, email.attackLevel, email.urgencyLevel⟩)).map (·.attempts) =
      some (((ledger.strategyScores
        (StrategyTrainer.getStrategyKey
          ⟨email.model, email.attackLevel, email.urgencyLevel⟩)).getD
            StrategyTrainer.freshStrategyStats).attempts + 1) ∧
    (∀ pid, email.targetPersonaId = some pid →
      ((StrategyTrainer.learnFromEmail inbox ledger email).personaVulnerabilities
          pid).map (·.attempts) =
        some (((ledger.personaVulnerabilities pid).getD
          StrategyTrainer.freshPersonaStats).attempts + 1)) := by
  have hstatus : StrategyTrainer.emailStatusFor inbox email.id = ⟨false, false⟩ := by
    unfold StrategyTrainer.emailStatusFor
    have hfind : inbox.reverse.find? (fun e => e.id == email.id) = none := by
      apply List.find?_eq_none.mpr
      intro e he
      simpa using habsent e (List.mem_reverse.mp he)
    rw [hfind]
  refine ⟨hstatus, ?_, ?_⟩
  · unfold StrategyTrainer.learnFromEmail
    rcases hp : email.targetPersonaId with _ | pid <;>
      simp [hp, StrategyTrainer.recordStrategyOutcome]
  · intro pid hp
    unfold StrategyTrainer.learnFromEmail
    simp [hp, StrategyTrainer.recordPersonaOutcome]

/-- Witness for C9: the stray email's id is absent from the one-record
inbox; learning still increments its strategy and persona attempts
counters from the empty ledger. -/
theorem C9_missing_email_still_recorded_witness :
    StrategyTrainer.emailStatusFor smallInbox strayEmail.id = ⟨false, false⟩ ∧
    ((StrategyTrainer.learnFromEmail smallInbox emptyLedger strayEmail).strategyScores
        (StrategyTrainer.getStrategyKey
          ⟨strayEmail.model, strayEmail.attackLevel, strayEmail.urgencyLevel⟩)).map
      (·.attempts) =
      some (((emptyLedger.strategyScores
        (StrategyTrainer.getStrategyKey
          ⟨strayEmail.model, strayEmail.attackLevel, strayEmail.urgencyLevel⟩)).getD
            StrategyTrainer.freshStrategyStats).attempts + 1) ∧
    ((StrategyTrainer.learnFromEmail smallInbox emptyLedger strayEmail).personaVulnerabilities
        "p1").map (·.attempts) =
      some (((emptyLedger.personaVulnerabilities "p1").getD
        StrategyTrainer.freshPersonaStats).attempts + 1) := by
  have h := C9_missing_email_still_recorded smallInbox emptyLedger strayEmail (by decide)
  exact ⟨h.1, h.2.1, h.2.2 "p1" rfl⟩

/-- A two-element merge sort compares the two elements once. -/
theorem mergeSort_pair {α : Type} (le : α → α → Bool) (x y : α) :
    List.mergeSort [x, y] le = if le x y then [x, y] else [y, x] := by
  simp [List.mergeSort, List.splitInTwo, List.splitAt, List.splitAt.go, List.merge]

/-- Counterexample for C8: with equal vulnerability scores of 100, the
zero-attempt persona scores 60 while the six-attempt persona scores
100, so selection ranks the explored persona first. -/
theorem C8_counterexample :
    StrategyTrainer.targetSelectionScore contrastVulns untestedPersona = 60 ∧
    StrategyTrainer.targetSelectionScore contrastVulns exploredPersona = 100 ∧
    StrategyTrainer.selectBestTargets [untestedPersona, exploredPersona] contrastVulns 1 =
      [exploredPersona] ∧
    untestedPersona ≠ exploredPersona := by
  have hA : StrategyTrainer.targetSelectionScore contrastVulns untestedPersona = 60 := by
    norm_num [StrategyTrainer.targetSelectionScore, contrastVulns, untestedPersona,
      StrategyTrainer.minAttemptsForLearning, min_def]
  have hB : StrategyTrainer.targetSelectionScore contrastVulns exploredPersona = 100 := by
    norm_num [StrategyTrainer.targetSelectionScore, contrastVulns, exploredPersona,
      StrategyTrainer.minAttemptsForLearning, min_def,
      show (("b" : String) == "a") = false from by decide]
  refine ⟨hA, hB, ?_, by decide⟩
  simp only [StrategyTrainer.selectBestTargets, List.map_cons, List.map_nil, hA, hB,
    mergeSort_pair]
  norm_num

/-- The exploration bonus of a persona with at least
minAttemptsForLearning attempts is at most 30. -/
theorem explored_bonus_le (a : Nat) (ha : StrategyTrainer.minAttemptsForLearning ≤ a) :
    (if a < StrategyTrainer.minAttemptsForLearning then
        ((StrategyTrainer.minAttemptsForLearning - a : Nat) : ℚ) * 20
      else if a < StrategyTrainer.minAttemptsForLearning * 2 then
        ((StrategyTrainer.minAttemptsForLearning * 2 - a : Nat) : ℚ) * 10
      else 0) ≤ 30 := by
  unfold StrategyTrainer.minAttemptsForLearning at *
  have hnot : ¬ a < 3 := by omega
  rw [if_neg hnot]
  split
  · have h6 : 6 - a ≤ 3 := by omega
    have : ((6 - a : Nat) : ℚ) ≤ 3 := by exact_mod_cast h6
    nlinarith
  · norm_num

/-- C8 amended: selection returns exactly min(count, totalPersonas)
personas with no duplicates; and a zero-attempt persona's selection
score is at least that of a persona with at least
minAttemptsForLearning attempts and the same vulnerability score,
provided that shared score is at most 30 (for larger shared scores the
explored persona can outrank the unexplored one, as the counterexample
shows). -/
theorem C8_selection_properties :
    (∀ (personas : List StrategyTrainer.Persona)
        (vulns : String → Option StrategyTrainer.PersonaStats) (count : Nat),
      (StrategyTrainer.selectBestTargets personas vulns count).length =
        min count personas.length) ∧
    (∀ (personas : List StrategyTrainer.Persona)
        (vulns : String → Option StrategyTrainer.PersonaStats) (count : Nat),
      personas.Nodup → (StrategyTrainer.selectBestTargets personas vulns count).Nodup) ∧
    (∀ (vulns : String → Option StrategyTrainer.PersonaStats)
        (pa pb : StrategyTrainer.Persona) (da db : StrategyTrainer.PersonaStats),
      vulns pa.id = some da → vulns pb.id = some db →
      da.attempts = 0 → StrategyTrainer.minAttemptsForLearning ≤ db.attempts →
      da.vulnerabilityScore = db.vulnerabilityScore → db.vulnerabilityScore ≤ 30 →
      StrategyTrainer.targetSelectionScore vulns pb ≤
        StrategyTrainer.targetSelectionScore vulns pa) := by
  refine ⟨?_, ?_, ?_⟩
  · intro personas vulns count
    simp [StrategyTrainer.selectBestTargets]
  · intro personas vulns count h
    simp only [StrategyTrainer.selectBestTargets]
    rw [List.map_take]
    apply List.Nodup.sublist (List.take_sublist _ _)
    have hperm : List.Perm
        (((personas.map (fun p => (p, StrategyTrainer.targetSelectionScore vulns p))).mergeSort
            (fun a b => decide (b.2 ≤ a.2))).map Prod.fst) personas := by
      have := (List.mergeSort_perm
        (personas.map (fun p => (p, StrategyTrainer.targetSelectionScore vulns p)))
        (fun a b => decide (b.2 ≤ a.2))).map Prod.fst
      simpa [List.map_map, Function.comp_def] using this
    exact hperm.nodup_iff.mpr h
  · intro vulns pa pb da db hda hdb ha hb hveq hle
    unfold StrategyTrainer.targetSelectionScore
    rw [hda, hdb]
    simp only [Option.map_some', Option.getD_some, ha, hveq]
    have hbonusA :
        (if (0 : Nat) < StrategyTrainer.minAttemptsForLearning then
            ((StrategyTrainer.minAttemptsForLearning - 0 : Nat) : ℚ) * 20
          else if (0 : Nat) < StrategyTrainer.minAttemptsForLearning * 2 then
            ((StrategyTrainer.minAttemptsForLearning * 2 - 0 : Nat) : ℚ) * 10
          else 0) = 60 := by
      norm_num [StrategyTrainer.minAttemptsForLearning]
    have hconfA : min (min (((0 : Nat) : ℚ) / (StrategyTrainer.minAttemptsForLearning : ℚ)) (3 / 2)) 1 = 0 := by
      norm_num [StrategyTrainer.minAttemptsForLearning, min_def]
    have hconfB :
        min (min ((db.attempts : ℚ) / (StrategyTrainer.minAttemptsForLearning : ℚ)) (3 / 2)) 1 = 1 := by
      apply min_eq_right
      apply le_min
      · rw [le_div_iff₀ (by norm_num [StrategyTrainer.minAttemptsForLearning])]
        have : ((StrategyTrainer.minAttemptsForLearning : Nat) : ℚ) ≤ (db.attempts : ℚ) := by
          exact_mod_cast hb
        simpa [StrategyTrainer.minAttemptsForLearning] using this
      · norm_num
    have hbonusB := explored_bonus_le db.attempts hb
    rw [hconfA, hconfB, hbonusA]
    linarith [hbonusB, hle]

/-- Witness for C8: on the two personas with equal modest vulnerability
scores, selection returns one persona without duplicates and the
unexplored persona's selection score is at least the explored one's. -/
theorem C8_selection_properties_witness :
    (StrategyTrainer.selectBestTargets [untestedPersona, exploredPersona] modestVulns 1).length =
      min 1 2 ∧
    (StrategyTrainer.selectBestTargets [untestedPersona, exploredPersona] modestVulns 1).Nodup ∧
    StrategyTrainer.targetSelectionScore modestVulns exploredPersona ≤
      StrategyTrainer.targetSelectionScore modestVulns untestedPersona := by
  refine ⟨?_, ?_, ?_⟩
  · simpa using C8_selection_properties.1 [untestedPersona, exploredPersona] modestVulns 1
  · exact C8_selection_properties.2.1 [untestedPersona, exploredPersona] modestVulns 1
      (by decide)
  · exact C8_selection_properties.2.2 modestVulns untestedPersona exploredPersona
      ⟨0, 0, 0, 0, 30⟩ ⟨6, 3, 30, 30, 30⟩ rfl rfl rfl (by decide) rfl (by norm_num)

/-- Every decision-list verdict carries a risk score between 0 and
100. -/
theorem specClassify_score_bounds (f : FeatureSet) :
    0 ≤ (specClassify f).riskScore ∧ (specClassify f).riskScore ≤ 100 := by
  simp only [specClassify, specRules, firstMatch]
  repeat' split
  all_goals exact ⟨by norm_num, by norm_num⟩

/-- The agent's inline score is clamped, hence bounded. -/
theorem agent_score_bounds (email : Email) :
    0 ≤ (DefenseAgent.classifyEmail email).riskScore ∧
      (DefenseAgent.classifyEmail email).riskScore ≤ 100 := by
  simp only [DefenseAgent.classifyEmail]
  omega

/-- Counterexample for C7: on an email with no URLs, two urgency
keywords and two credential keywords from a trusted-domain sender, the
decision-tree classifier says high with score 80 while the defense
agent's inline scorer says medium with score 60. -/
theorem C7_counterexample :
    (DecisionTreeClassifier.classify divergenceEmail).riskLevel = RiskLevel.high ∧
    (DecisionTreeClassifier.classify divergenceEmail).riskScore = 80 ∧
    (DefenseAgent.classifyEmail divergenceEmail).riskLevel = RiskLevel.medium ∧
    (DefenseAgent.classifyEmail divergenceEmail).riskScore = 60 ∧
    (DecisionTreeClassifier.classify divergenceEmail).riskLevel ≠
      (DefenseAgent.classifyEmail divergenceEmail).riskLevel := by
  refine ⟨?_, ?_, ?_, ?_, ?_⟩ <;> decide

/-- C7 amended: both classifiers keep the risk score in the 0..100
range and each is a deterministic function of the email record, but the
two implementations can assign different verdicts to the same email
(the counterexample shows one). -/
theorem C7_risk_score_bounds :
    ∀ email : Email,
      0 ≤ (DecisionTreeClassifier.classify email).riskScore ∧
      (DecisionTreeClassifier.classify email).riskScore ≤ 100 ∧
      0 ≤ (DefenseAgent.classifyEmail email).riskScore ∧
      (DefenseAgent.classifyEmail email).riskScore ≤ 100 := by
  intro email
  have htree : DecisionTreeClassifier.classify email =
      specClassify (DecisionTreeClassifier.extractFeatures email) := by
    simp only [DecisionTreeClassifier.classify, classifyFeatures_eq_specClassify]
  have h1 := specClassify_score_bounds (DecisionTreeClassifier.extractFeatures email)
  have h2 := agent_score_bounds email
  rw [htree]
  exact ⟨h1.1, h1.2, h2.1, h2.2⟩

end Info492
